import Mathlib

/-!
Verification development for the OpenJupy error-handling core
(src/openjupy/middleware/error_handler.py, src/openjupy/middleware/response_wrapper.py,
src/openjupy/mappings/packages.py, src/openjupy/mappings/error_fixes.py).

The Python code is shallowly embedded: strings are Lean `String`s (processed as
`List Char`), Python dicts with string keys are association lists with unique
keys where lookup returns the first binding, `None`-able values are `Option`s,
and the regular expressions of the source are embedded as dedicated matchers
that implement exactly the search/backtracking behaviour of each concrete
pattern.  Python truthiness tests on optional strings/lists (`if x:`) are
embedded as the corresponding "is some and non-empty" tests.
-/

namespace OpenJupy

/-! ## Python string primitives -/

/-- Python whitespace characters recognised by `str.strip()` (ASCII subset;
the source is only ever applied to ASCII traceback text). -/
def pyIsSpace (c : Char) : Bool :=
  c = ' ' || c = '\t' || c = '\n' || c = '\r' || c = '\x0b' || c = '\x0c'

/-- Python `str.strip()` on a character list. -/
def pyStripL (cs : List Char) : List Char :=
  ((cs.dropWhile pyIsSpace).reverse.dropWhile pyIsSpace).reverse

/-- Python `str.strip()`. -/
def pyStrip (s : String) : String :=
  String.mk (pyStripL s.data)

/-- Python `text.split("\n")`: always returns at least one (possibly empty) line. -/
def splitNl : List Char → List (List Char)
  | [] => [[]]
  | c :: rest =>
    match splitNl rest with
    | l :: ls => if c = '\n' then [] :: l :: ls else (c :: l) :: ls
    | [] => [[c]]

/-- The line list the parser works on: Python
`traceback_text.strip().split("\n")`. -/
def pyLines (text : String) : List (List Char) :=
  splitNl (pyStripL text.data)

/-- Whether a character list starts with the given literal prefix
(Python `str.startswith`). -/
def listStartsWith : List Char → List Char → Bool
  | [], _ => true
  | _ :: _, [] => false
  | p :: ps, c :: cs => p = c && listStartsWith ps cs

/-- Index of the first occurrence of the two-character separator ": "
(Python `line.find(": ")`, `none` when `": " not in line`). -/
def findColonSpace : List Char → Option Nat
  | ':' :: ' ' :: _ => some 0
  | _ :: rest => (findColonSpace rest).map (· + 1)
  | [] => none

/-- Python `line.split(": ", 1)`: split at the first occurrence of ": " only. -/
def pySplitCS1 (l : List Char) : List (List Char) :=
  match findColonSpace l with
  | some i => [l.take i, l.drop (i + 2)]
  | none => [l]

/-- Numeric value of a digit string (Python `int` on a `\d+` regex capture). -/
def natOfDigits (ds : List Char) : Nat :=
  ds.foldl (fun a c => a * 10 + (c.toNat - 48)) 0

/-! ## PackageNameResolver (src/openjupy/mappings/packages.py) -/

/-- The PACKAGE_NAME_MAP table of packages.py, in source order. -/
def PACKAGE_NAME_MAP : List (String × String) :=
  [("cv2", "opencv-python"), ("sklearn", "scikit-learn"), ("PIL", "pillow"),
   ("yaml", "pyyaml"), ("bs4", "beautifulsoup4"), ("dateutil", "python-dateutil"),
   ("dotenv", "python-dotenv"), ("jwt", "pyjwt"), ("magic", "python-magic"),
   ("serial", "pyserial"), ("usb", "pyusb"), ("wx", "wxpython"),
   ("gi", "pygobject"), ("cairo", "pycairo"), ("Crypto", "pycryptodome"),
   ("OpenSSL", "pyopenssl"), ("MySQLdb", "mysqlclient"), ("psycopg2", "psycopg2-binary"),
   ("lxml", "lxml"), ("skimage", "scikit-image"), ("tensorflow", "tensorflow"),
   ("tf", "tensorflow"), ("torch", "torch"), ("torchvision", "torchvision"),
   ("transformers", "transformers"), ("langchain", "langchain"), ("openai", "openai"),
   ("anthropic", "anthropic"), ("httpx", "httpx"), ("aiohttp", "aiohttp"),
   ("fastapi", "fastapi"), ("flask", "flask"), ("django", "django"),
   ("sqlalchemy", "sqlalchemy"), ("alembic", "alembic"), ("celery", "celery"),
   ("redis", "redis"), ("boto3", "boto3"), ("botocore", "botocore"),
   ("google.cloud", "google-cloud-core"), ("azure", "azure-core")]

/-- Association-list lookup, first binding wins (Python `dict.get`). -/
def lookupStr : List (String × String) → String → Option String
  | [], _ => none
  | (k, v) :: rest, key => if k = key then some v else lookupStr rest key

/-- Python `import_name.split(".")[0]`: the leading dotted component. -/
def baseModule (import_name : String) : String :=
  String.mk (import_name.data.takeWhile (· ≠ '.'))

/-- get_correct_package_name of packages.py:
`PACKAGE_NAME_MAP.get(import_name.split(".")[0], import_name)`. -/
def get_correct_package_name (import_name : String) : String :=
  (lookupStr PACKAGE_NAME_MAP (baseModule import_name)).getD import_name

/-! ## Embedded regular expressions (class attributes of ErrorHandler)

Each matcher implements `pattern.search(text)`: try a match at every start
position from left to right, returning the captures of the first position
that matches.  Greedy character classes and the backtracking they require
are implemented per pattern. -/

/-- A quote character, the class accepted by the regexes' optional quotes. -/
def isQuote (c : Char) : Bool := c = '\'' || c = '"'

/-- Regex search combinator: try the given single-position matcher at every
suffix, leftmost success wins (the final empty suffix included). -/
def searchAt (try1 : List Char → Option α) : List Char → Option α
  | [] => try1 []
  | c :: rest =>
    match try1 (c :: rest) with
    | some x => some x
    | none => searchAt try1 rest

/-- Match the tail regex fragment  ['\"]?([^'\"]+)  at the current position:
an optional opening quote, then a greedy non-empty run of non-quote
characters (nothing follows the capture in the pattern apart from an
optional closing quote, so the greedy run is maximal). -/
def capAfterQuote (cs : List Char) : Option (List Char) :=
  let body := match cs with
    | c :: rest => if isQuote c then rest else cs
    | [] => []
  let run := body.takeWhile (fun c => !isQuote c)
  if run.isEmpty then none else some run

/-- Single-position matcher for a literal followed by ['\"]?([^'\"]+)['\"]? . -/
def litThenCap (lit : List Char) (cs : List Char) : Option (List Char) :=
  if listStartsWith lit cs then capAfterQuote (cs.drop lit.length) else none

/-- MODULE_NOT_FOUND_PATTERN.search:  No module named ['\"]?([^'\"]+)['\"]? -/
def moduleNotFoundSearch (cs : List Char) : Option (List Char) :=
  searchAt (litThenCap "No module named ".data) cs

/-- IMPORT_ERROR_PATTERN.search:  cannot import name ['\"]?([^'\"]+)['\"]? -/
def importErrorSearch (cs : List Char) : Option (List Char) :=
  searchAt (litThenCap "cannot import name ".data) cs

/-- FILE_NOT_FOUND_PATTERN.search:
\[Errno 2\] No such file or directory: ['\"]?([^'\"]+)['\"]? -/
def fileNotFoundSearch (cs : List Char) : Option (List Char) :=
  searchAt (litThenCap "[Errno 2] No such file or directory: ".data) cs

/-- KEY_ERROR_PATTERN.search:  ['\"]?([^'\"]+)['\"]? -/
def keyErrorSearch (cs : List Char) : Option (List Char) :=
  searchAt capAfterQuote cs

/-- Backtracking for a greedy capture  ([^'\"]+)  that must be followed by
more pattern: `run` is the maximal non-quote run at the capture position and
`tl` what follows it; try capture lengths from `k` down to 1, accepting the
first for which `check` matches the remainder.  Mirrors how the regex engine
shrinks a greedy class on failure of the subsequent pattern. -/
def bestCapAux (run tl : List Char) (check : List Char → Option β) : Nat → Option (List Char × β)
  | 0 => none
  | k + 1 =>
    match check (run.drop (k + 1) ++ tl) with
    | some b => some (run.take (k + 1), b)
    | none => bestCapAux run tl check k

/-- Match  ([^'\"]+)['\"]?<lit>  at the current position with greedy
backtracking, returning the capture and the remainder after `lit`. -/
def capThenLit (lit : List Char) (cs : List Char) : Option (List Char × List Char) :=
  let run := cs.takeWhile (fun c => !isQuote c)
  let tl := cs.drop run.length
  bestCapAux run tl
    (fun rest =>
      if listStartsWith lit rest then some (rest.drop lit.length)
      else match rest with
        | c :: rest2 => if isQuote c && listStartsWith lit rest2
            then some (rest2.drop lit.length) else none
        | [] => none)
    run.length

/-- Single-position matcher for NAME_ERROR_PATTERN:
name ['\"]?([^'\"]+)['\"]? is not defined -/
def nameErrorTry (cs : List Char) : Option (List Char) :=
  if listStartsWith "name ".data cs then
    let body := match cs.drop 5 with
      | c :: rest => if isQuote c then rest else cs.drop 5
      | [] => []
    (capThenLit " is not defined".data body).map (·.1)
  else none

/-- NAME_ERROR_PATTERN.search:  name ['\"]?([^'\"]+)['\"]? is not defined -/
def nameErrorSearch (cs : List Char) : Option (List Char) :=
  searchAt nameErrorTry cs

/-- Single-position matcher for ATTRIBUTE_ERROR_PATTERN:
['\"]?([^'\"]+)['\"]? object has no attribute ['\"]?([^'\"]+)['\"]?
The check handed to the backtracking combinator spans everything after the
first capture — optional quote, the literal, and the second capture — so that
a failure of the SECOND capture also shrinks the first greedy capture
further, exactly as the regex engine does (e.g. on a message containing the
literal twice, the first capture backtracks past its first occurrence). -/
def attrErrorTry (cs : List Char) : Option (List Char × List Char) :=
  let body := match cs with
    | c :: rest => if isQuote c then rest else cs
    | [] => []
  let run := body.takeWhile (fun c => !isQuote c)
  let tl := body.drop run.length
  let lit := " object has no attribute ".data
  bestCapAux run tl
    (fun rest =>
      let after :=
        if listStartsWith lit rest then some (rest.drop lit.length)
        else
          match rest with
          | c :: rest2 =>
            if isQuote c && listStartsWith lit rest2 then some (rest2.drop lit.length)
            else none
          | [] => none
      match after with
      | some rest2 => capAfterQuote rest2
      | none => none)
    run.length

/-- ATTRIBUTE_ERROR_PATTERN.search. -/
def attrErrorSearch (cs : List Char) : Option (List Char × List Char) :=
  searchAt attrErrorTry cs

/-- Single-position matcher for TRACEBACK_LINE_PATTERN:
File "([^"]+)", line (\d+)(?:, in ([^\n]+))?
The lines it is applied to contain no newline, so the optional third capture
is greedy to the end of the line. -/
def frameTry (cs : List Char) : Option (List Char × Nat × Option (List Char)) :=
  if listStartsWith "File \"".data cs then
    let rest := cs.drop 6
    let path := rest.takeWhile (· ≠ '"')
    if path.isEmpty then none else
    match rest.drop path.length with
    | '"' :: r3 =>
      if listStartsWith ", line ".data r3 then
        let r4 := r3.drop 7
        let num := r4.takeWhile Char.isDigit
        if num.isEmpty then none else
        let r5 := r4.drop num.length
        let fn := if listStartsWith ", in ".data r5 && !(r5.drop 5).isEmpty
          then some (r5.drop 5) else none
        some (path, natOfDigits num, fn)
      else none
    | _ => none
  else none

/-- TRACEBACK_LINE_PATTERN.search on one line. -/
def frameSearch (cs : List Char) : Option (List Char × Nat × Option (List Char)) :=
  searchAt frameTry cs

/-! ## SuggestionCatalog (src/openjupy/mappings/error_fixes.py) -/

/-- FixSuggestion dataclass of error_fixes.py. -/
structure FixSuggestion where
  message_template : String
  action_template : Option String := none
  deriving DecidableEq, Repr

/-- Association-list lookup for an arbitrary value type, first binding wins
(Python `dict.get(key)` / `dict[key]` on the unique-keyed dicts of the source). -/
def lookupKey {α : Type} : List (String × α) → String → Option α
  | [], _ => none
  | (k, v) :: rest, key => if k = key then some v else lookupKey rest key

/-- The ERROR_FIX_MAP table of error_fixes.py, in source order. -/
def ERROR_FIX_MAP : List (String × FixSuggestion) :=
  [("ModuleNotFoundError",
    { message_template := "Module '{module}' is not installed.",
      action_template := some "uv add {package}" }),
   ("ImportError",
    { message_template := "Cannot import '{name}' from '{module}'.",
      action_template := some "Check if the module is installed correctly: uv add {package}" }),
   ("FileNotFoundError",
    { message_template := "File or directory not found: '{path}'.",
      action_template := some "Verify the path exists. Current directory: use os.getcwd() to check." }),
   ("PermissionError",
    { message_template := "Permission denied: '{path}'.",
      action_template := some "Check file permissions or run with appropriate privileges." }),
   ("NameError",
    { message_template := "Name '{name}' is not defined.",
      action_template := some "Define the variable before use, or check for typos." }),
   ("AttributeError",
    { message_template := "'{type}' object has no attribute '{attribute}'.",
      action_template := some "Check the object type and available attributes using dir()." }),
   ("TypeError",
    { message_template := "Type error in operation.",
      action_template := some "Check argument types. Use type() to inspect values." }),
   ("ValueError",
    { message_template := "Invalid value provided.",
      action_template := some "Check the expected value format or range." }),
   ("KeyError",
    { message_template := "Key '{key}' not found in dictionary.",
      action_template := some "Use .get(key, default) for safe access, or check available keys." }),
   ("IndexError",
    { message_template := "Index out of range.",
      action_template := some "Check sequence length with len() before accessing." }),
   ("ZeroDivisionError",
    { message_template := "Division by zero.",
      action_template := some "Add a check for zero before dividing." }),
   ("SyntaxError",
    { message_template := "Syntax error in code.",
      action_template := some "Check for missing colons, parentheses, or quotes." }),
   ("IndentationError",
    { message_template := "Indentation error.",
      action_template := some "Use consistent indentation (4 spaces recommended)." }),
   ("ConnectionError",
    { message_template := "Connection failed.",
      action_template := some "Check network connectivity and the target URL/host." }),
   ("TimeoutError",
    { message_template := "Operation timed out.",
      action_template := some "Increase timeout or check if the service is responding." }),
   ("MemoryError",
    { message_template := "Out of memory.",
      action_template := some "Reduce data size, use generators, or process in chunks." }),
   ("RecursionError",
    { message_template := "Maximum recursion depth exceeded.",
      action_template := some "Add a base case or convert to iterative approach." })]

/-! ## Template interpolation (Python str.format with keyword arguments)

The catalog templates only use plain `{name}` placeholders (no escapes, no
format specs), which is the fragment embedded here.  A placeholder whose name
is missing from the value map yields `none`, which the source catches as a
`KeyError`, as does a `{` without a matching `}` (a `ValueError` in Python,
unreachable for the catalog templates). -/

def formatMapCore (vs : List (String × String)) : List Char → Option (List Char)
  | [] => some []
  | '{' :: rest =>
    let nm := rest.takeWhile (· ≠ '}')
    match h : rest.drop nm.length with
    | '}' :: rest2 =>
      match lookupKey vs (String.mk nm) with
      | some v =>
        match formatMapCore vs rest2 with
        | some r => some (v.data ++ r)
        | none => none
      | none => none
    | _ => none
  | c :: rest =>
    match formatMapCore vs rest with
    | some r => some (c :: r)
    | none => none
  termination_by cs => cs.length
  decreasing_by
  · have hlen := congrArg List.length h
    simp [List.length_drop] at hlen
    simp
    omega
  · simp

/-- Python `template.format(**vs)` for the plain-placeholder fragment;
`none` models the exception path. -/
def pyFormat (t : String) (vs : List (String × String)) : Option String :=
  (formatMapCore vs t.data).map String.mk

/-! ## TracebackParser (ErrorHandler.parse_traceback and helpers) -/

/-- ParsedError dataclass of error_handler.py.  Line numbers captured by the
regex are decimal digit strings, hence `Nat`. -/
structure ParsedError where
  error_type : String
  error_message : String
  file_path : Option String := none
  line_number : Option Nat := none
  function_name : Option String := none
  code_context : Option String := none
  extracted_values : List (String × String) := []
  deriving DecidableEq, Repr

/-- The loop condition of the backward scan:
`": " in line and not line.startswith(" ")`. -/
def lineTyped (l : List Char) : Bool :=
  (findColonSpace l).isSome && !listStartsWith " ".data l

/-- The backward scan of parse_traceback:
`for line in reversed(lines): if <lineTyped>: ... break`. -/
def findErrLine? (lines : List (List Char)) : Option (List Char) :=
  lines.reverse.find? lineTyped

/-- The (error_type, error_message) pair produced by the backward scan, before
conversion to `String`:
`parts = line.split(": ", 1); error_type = parts[0].strip();
error_message = parts[1].strip() if len(parts) > 1 else ""`,
with the initial values ("UnknownError", "") when no line is found. -/
def errPair (lines : List (List Char)) : List Char × List Char :=
  match findErrLine? lines with
  | some l =>
    let parts := pySplitCS1 l
    (pyStripL (parts.headD []),
     if parts.length > 1 then pyStripL (parts.getD 1 []) else [])
  | none => ("UnknownError".data, [])

/-- ErrorHandler._extract_error_values. -/
def extract_error_values (error_type error_message : String) : List (String × String) :=
  if error_type = "ModuleNotFoundError" then
    match moduleNotFoundSearch error_message.data with
    | some m =>
      [("module", String.mk m), ("package", get_correct_package_name (String.mk m))]
    | none => []
  else if error_type = "ImportError" then
    match importErrorSearch error_message.data with
    | some m => [("name", String.mk m)]
    | none => []
  else if error_type = "NameError" then
    match nameErrorSearch error_message.data with
    | some m => [("name", String.mk m)]
    | none => []
  else if error_type = "AttributeError" then
    match attrErrorSearch error_message.data with
    | some (t, a) => [("type", String.mk t), ("attribute", String.mk a)]
    | none => []
  else if error_type = "KeyError" then
    match keyErrorSearch error_message.data with
    | some m => [("key", String.mk m)]
    | none => []
  else if error_type = "FileNotFoundError" then
    match fileNotFoundSearch error_message.data with
    | some m => [("path", String.mk m)]
    | none => []
  else []

/-- Accumulator of the forward frame scan: the four location variables of
parse_traceback. -/
structure LocState where
  file : Option (List Char) := none
  line : Option Nat := none
  func : Option (List Char) := none
  cc : Option (List Char) := none
  deriving DecidableEq, Repr

/-- The forward scan of parse_traceback over `enumerate(lines)`: every frame
match overwrites file/line/function (so the last match wins), and
`code_context` is overwritten only when the line after the match starts with
four spaces. -/
def frameScan : List (List Char) → LocState → LocState
  | [], st => st
  | l :: rest, st =>
    match frameSearch l with
    | none => frameScan rest st
    | some (f, n, g) =>
      let cc := match rest with
        | nxt :: _ => if listStartsWith "    ".data nxt then some (pyStripL nxt) else st.cc
        | [] => st.cc
      frameScan rest { file := some f, line := some n, func := g, cc := cc }

/-- ErrorHandler.parse_traceback. -/
def parse_traceback (text : String) : ParsedError :=
  let lines := pyLines text
  let p := errPair lines
  let loc := frameScan lines {}
  { error_type := String.mk p.1
    error_message := String.mk p.2
    file_path := loc.file.map String.mk
    line_number := loc.line
    function_name := loc.func.map String.mk
    code_context := loc.cc.map String.mk
    extracted_values := extract_error_values (String.mk p.1) (String.mk p.2) }

/-! ## ErrorAnalyzer (ErrorHandler.analyze_error and helpers) -/

/-- ErrorAnalysis dataclass of error_handler.py. -/
structure ErrorAnalysis where
  parsed_error : ParsedError
  fix_suggestion : Option FixSuggestion
  claude_tip : String
  claude_next : String
  suggested_action : Option String := none
  deriving DecidableEq, Repr

/-- ErrorHandler._generate_claude_tip.  The source's
`if fix and fix.message_template:` is non-None plus non-empty truthiness, and
the `try/except KeyError` around `.format` is the `none` fallthrough. -/
def generate_claude_tip (parsed : ParsedError) (fix : Option FixSuggestion) : String :=
  let fromTemplate : Option String :=
    match fix with
    | some fx =>
      if fx.message_template ≠ "" then pyFormat fx.message_template parsed.extracted_values
      else none
    | none => none
  match fromTemplate with
  | some s => s
  | none =>
    let location :=
      match parsed.file_path, parsed.line_number with
      | some f, some n =>
        if f ≠ "" && n ≠ 0 then " at " ++ f ++ ":" ++ toString n else ""
      | _, _ => ""
    parsed.error_type ++ location ++ ": " ++ parsed.error_message

/-- ErrorHandler._generate_claude_next. -/
def generate_claude_next (parsed : ParsedError) (fix : Option FixSuggestion) : String :=
  if parsed.error_type = "ModuleNotFoundError" then
    let package := (lookupKey parsed.extracted_values "package").getD ""
    if package ≠ "" then "Install the missing package using: uv add " ++ package
    else "Install the missing module using uv or pip."
  else if parsed.error_type = "NameError" then
    let nm := (lookupKey parsed.extracted_values "name").getD ""
    "Define '" ++ nm ++ "' before using it, or check for typos."
  else if parsed.error_type = "FileNotFoundError" then
    "Verify the file path. Use os.getcwd() to check current directory."
  else
    match fix with
    | some fx =>
      match fx.action_template with
      | some t =>
        if t ≠ "" then (pyFormat t parsed.extracted_values).getD t
        else "Review the error and fix the underlying issue."
      | none => "Review the error and fix the underlying issue."
    | none => "Review the error and fix the underlying issue."

/-- ErrorHandler._generate_action.  The ModuleNotFoundError branch falls
through when no truthy package value exists, and the `except KeyError` around
the template interpolation returns None. -/
def generate_action (parsed : ParsedError) (fix : Option FixSuggestion) : Option String :=
  let step1 : Option String :=
    if parsed.error_type = "ModuleNotFoundError" then
      match lookupKey parsed.extracted_values "package" with
      | some p => if p ≠ "" then some ("uv add " ++ p) else none
      | none => none
    else none
  match step1 with
  | some a => some a
  | none =>
    match fix with
    | some fx =>
      match fx.action_template with
      | some t => if t ≠ "" then pyFormat t parsed.extracted_values else none
      | none => none
    | none => none

/-- The analysis derived from a parsed error: the body of analyze_error after
the parse (fix lookup and the three derived strings). -/
def mkAnalysis (parsed : ParsedError) : ErrorAnalysis :=
  let fix := lookupKey ERROR_FIX_MAP parsed.error_type
  { parsed_error := parsed
    fix_suggestion := fix
    claude_tip := generate_claude_tip parsed fix
    claude_next := generate_claude_next parsed fix
    suggested_action := generate_action parsed fix }

/-- ErrorHandler.analyze_error. -/
def analyze_error (text : String) : ErrorAnalysis :=
  mkAnalysis (parse_traceback text)

/-! ## Response structures (dict[str, Any] payloads)

The callers' responses are string-keyed dicts with heterogeneous values; the
value universe below covers the values the middleware reads or writes
(strings, integers, None, and the nested error_details dict). -/

/-- An atomic dict value: the value types appearing inside the nested
error_details record (string, integer, None). -/
inductive ValAtom where
  | s : String → ValAtom
  | n : Int → ValAtom
  | null : ValAtom
  deriving DecidableEq, Repr

inductive Val where
  | vs : String → Val
  | vn : Int → Val
  | vnone : Val
  | vdict : List (String × ValAtom) → Val
  deriving DecidableEq, Repr

/-- A response payload: a string-keyed mapping with unique keys, in insertion
order. -/
abbrev Resp := List (String × Val)

/-- Python `d[k] = v` on a (unique-keyed) dict: replace in place, or append. -/
def setKey : Resp → String → Val → Resp
  | [], k, v => [(k, v)]
  | (k', v') :: rest, k, v =>
    if k' = k then (k, v) :: rest else (k', v') :: setKey rest k v

/-- Python `d[k] += s` for a string-valued entry (the only use in the source,
always immediately after `d[k]` was set to a string). -/
def appendStrKey (d : Resp) (k : String) (s : String) : Resp :=
  match lookupKey d k with
  | some (Val.vs t) => setKey d k (Val.vs (t ++ s))
  | _ => d

/-- A possibly-absent string field of error_details. -/
def optStrVal : Option String → ValAtom
  | some s => ValAtom.s s
  | none => ValAtom.null

/-- A possibly-absent line-number field of error_details. -/
def optNatVal : Option Nat → ValAtom
  | some n => ValAtom.n (Int.ofNat n)
  | none => ValAtom.null

/-- Python truthiness of an `str | None` value (`if x:`). -/
def pyTruthyS : Option String → Bool
  | some s => s ≠ ""
  | none => false

/-- Python `str.capitalize()` (ASCII case mapping, all the source passes in). -/
def pyCapitalize (s : String) : String :=
  match s.data with
  | [] => ""
  | c :: rest => String.mk (c.toUpper :: rest.map Char.toLower)

/-! ## ResponseEnricher: ErrorHandler.enrich_response -/

/-- The nested error_details dict that enrich_response injects. -/
def errorDetailsVal (p : ParsedError) : Val :=
  Val.vdict
    [("type", ValAtom.s p.error_type),
     ("message", ValAtom.s p.error_message),
     ("file", optStrVal p.file_path),
     ("line", optNatVal p.line_number),
     ("function", optStrVal p.function_name)]

/-- The key writes of enrich_response applied to a dict, given the analysis
(the source's `if analysis.suggested_action:` is Optional-string truthiness). -/
def enrichWith (response : Resp) (analysis : ErrorAnalysis) : Resp :=
  let e1 := setKey response "claude_tip" (Val.vs analysis.claude_tip)
  let e2 := setKey e1 "claude_next" (Val.vs analysis.claude_next)
  let e3 := match analysis.suggested_action with
    | some a => if a ≠ "" then setKey e2 "suggested_action" (Val.vs a) else e2
    | none => e2
  setKey e3 "error_details" (errorDetailsVal analysis.parsed_error)

/-- ErrorHandler.enrich_response.  `enriched = dict(response)` is the identity
on the pure value; the write order follows the source. -/
def enrich_response (response : Resp) (traceback_text : String) : Resp :=
  enrichWith response (analyze_error traceback_text)

/-! ## ResponseWrapper (src/openjupy/middleware/response_wrapper.py) -/

/-- The tips / next_steps lists accumulated by wrap_execution_success before
they are joined (`if namespace_vars:` and `if df_vars:` are list truthiness;
`df_vars[0]` is guarded by the latter). -/
def successTipsNext (output : Option String) (namespace_vars : Option (List String)) :
    List String × List String :=
  let tips : List String :=
    if pyTruthyS output then ["Code executed successfully with output."]
    else ["Code executed successfully (no output)."]
  let next_steps : List String := []
  match namespace_vars with
  | some vars =>
    if vars ≠ [] then
      let df_vars := vars.filter (fun v => v.endsWith "_df" || v = "df")
      let p1 : List String × List String :=
        if df_vars ≠ [] then
          (["DataFrames available: " ++ String.intercalate ", " df_vars],
           ["Explore data with " ++ df_vars.headD "" ++ ".head() or " ++
            df_vars.headD "" ++ ".describe()"])
        else ([], [])
      let p2 : List String × List String :=
        if vars.length > 0 then
          (["Namespace contains " ++ toString vars.length ++ " variable(s)."],
           ["Use jupyter_inspect_namespace() to see all defined variables."])
        else ([], [])
      (tips ++ p1.1 ++ p2.1, next_steps ++ p1.2 ++ p2.2)
    else (tips, next_steps)
  | none => (tips, next_steps)

/-- ResponseWrapper.wrap_execution_success. -/
def wrap_execution_success (response : Resp) (output : Option String := none)
    (namespace_vars : Option (List String) := none) : Resp :=
  let enriched := setKey response "status" (Val.vs "success")
  let p := successTipsNext output namespace_vars
  let enriched := setKey enriched "claude_tip"
    (Val.vs (if p.1 ≠ [] then String.intercalate " " p.1 else "Execution complete."))
  setKey enriched "claude_next"
    (Val.vs (if p.2 ≠ [] then String.intercalate " " p.2 else "Continue with your analysis."))

/-- ResponseWrapper.wrap_execution_error. -/
def wrap_execution_error (response : Resp) (traceback_text : String) : Resp :=
  enrich_response (setKey response "status" (Val.vs "error")) traceback_text

/-- ResponseWrapper.wrap_notebook_created. -/
def wrap_notebook_created (response : Resp) (notebook_path : String)
    (kernel_name : Option String := none) : Resp :=
  let e1 := setKey response "status" (Val.vs "success")
  let e2 := setKey e1 "claude_tip" (Val.vs ("Notebook created at " ++ notebook_path ++ "."))
  let e3 := if pyTruthyS kernel_name then
      appendStrKey e2 "claude_tip" (" Using kernel: " ++ kernel_name.getD "" ++ ".")
    else e2
  setKey e3 "claude_next"
    (Val.vs "Add cells with jupyter_add_cell() or execute code with jupyter_execute_cell().")

/-- ResponseWrapper.wrap_cell_added. -/
def wrap_cell_added (response : Resp) (cell_type : String) (cell_index : Int) : Resp :=
  let e1 := setKey response "status" (Val.vs "success")
  let e2 := setKey e1 "claude_tip"
    (Val.vs (pyCapitalize cell_type ++ " cell added at index " ++ toString cell_index ++ "."))
  if cell_type = "code" then
    setKey e2 "claude_next" (Val.vs "Execute the cell with jupyter_execute_cell().")
  else
    setKey e2 "claude_next" (Val.vs "Add more cells or execute existing code cells.")

/-- ResponseWrapper.wrap_kernel_status.  The execution-count test in the
source is `is not None`, not truthiness. -/
def wrap_kernel_status (response : Resp) (is_alive : Bool)
    (execution_count : Option Int := none) : Resp :=
  if is_alive then
    let e1 := setKey response "status" (Val.vs "running")
    let e2 := setKey e1 "claude_tip" (Val.vs "Kernel is running and ready for execution.")
    let e3 := match execution_count with
      | some n => appendStrKey e2 "claude_tip" (" Execution count: " ++ toString n ++ ".")
      | none => e2
    setKey e3 "claude_next" (Val.vs "Execute code with jupyter_execute_cell().")
  else
    let e1 := setKey response "status" (Val.vs "stopped")
    let e2 := setKey e1 "claude_tip" (Val.vs "Kernel is not running.")
    setKey e2 "claude_next" (Val.vs "Start the kernel or create a new notebook.")

/-- ResponseWrapper.wrap_generic_success. -/
def wrap_generic_success (response : Resp) (operation : String)
    (details : Option String := none) : Resp :=
  let e1 := setKey response "status" (Val.vs "success")
  let e2 := setKey e1 "claude_tip" (Val.vs (operation ++ " completed successfully."))
  let e3 := if pyTruthyS details then appendStrKey e2 "claude_tip" (" " ++ details.getD "")
    else e2
  setKey e3 "claude_next" (Val.vs "Continue with your workflow.")

/-! ## Heap model of the enrichment entry points

In the source every entry point starts with `enriched = dict(response)` and
then mutates only `enriched`.  In the pure embedding above, non-mutation of
the caller's dict is invisible, so the entry points are additionally embedded
against a small store: a heap of dict cells addressed by index,
`dict(response)` allocates a fresh cell with the argument cell's contents, and
every subscript assignment / augmented assignment of the source becomes a
store update on the named cell. -/

abbrev Heap := List Resp

/-- Read the dict at a cell. -/
def hget (h : Heap) (i : Nat) : Resp := h[i]?.getD []

/-- `dict(d)`: allocate a fresh cell holding a copy of `d`. -/
def halloc (h : Heap) (d : Resp) : Heap × Nat := (h ++ [d], h.length)

/-- `h[i][k] = v`. -/
def hsetKey (h : Heap) (i : Nat) (k : String) (v : Val) : Heap :=
  h.set i (setKey (hget h i) k v)

/-- `h[i][k] += s` (string-valued entry). -/
def happendStr (h : Heap) (i : Nat) (k : String) (s : String) : Heap :=
  h.set i (appendStrKey (hget h i) k s)

/-- enrich_response against the store. -/
def enrich_responseH (h : Heap) (r : Nat) (traceback_text : String) : Heap × Nat :=
  let analysis := analyze_error traceback_text
  let a := halloc h (hget h r)
  let h1 := hsetKey a.1 a.2 "claude_tip" (Val.vs analysis.claude_tip)
  let h2 := hsetKey h1 a.2 "claude_next" (Val.vs analysis.claude_next)
  let h3 := match analysis.suggested_action with
    | some s => if s ≠ "" then hsetKey h2 a.2 "suggested_action" (Val.vs s) else h2
    | none => h2
  (hsetKey h3 a.2 "error_details" (errorDetailsVal analysis.parsed_error), a.2)

/-- wrap_execution_success against the store. -/
def wrap_execution_successH (h : Heap) (r : Nat) (output : Option String)
    (namespace_vars : Option (List String)) : Heap × Nat :=
  let a := halloc h (hget h r)
  let h1 := hsetKey a.1 a.2 "status" (Val.vs "success")
  let p := successTipsNext output namespace_vars
  let h2 := hsetKey h1 a.2 "claude_tip"
    (Val.vs (if p.1 ≠ [] then String.intercalate " " p.1 else "Execution complete."))
  (hsetKey h2 a.2 "claude_next"
    (Val.vs (if p.2 ≠ [] then String.intercalate " " p.2 else "Continue with your analysis.")),
   a.2)

/-- wrap_execution_error against the store: copy, set status, then delegate
the copy to enrich_response (which copies again). -/
def wrap_execution_errorH (h : Heap) (r : Nat) (traceback_text : String) : Heap × Nat :=
  let a := halloc h (hget h r)
  let h1 := hsetKey a.1 a.2 "status" (Val.vs "error")
  enrich_responseH h1 a.2 traceback_text

/-- wrap_notebook_created against the store. -/
def wrap_notebook_createdH (h : Heap) (r : Nat) (notebook_path : String)
    (kernel_name : Option String) : Heap × Nat :=
  let a := halloc h (hget h r)
  let h1 := hsetKey a.1 a.2 "status" (Val.vs "success")
  let h2 := hsetKey h1 a.2 "claude_tip"
    (Val.vs ("Notebook created at " ++ notebook_path ++ "."))
  let h3 := if pyTruthyS kernel_name then
      happendStr h2 a.2 "claude_tip" (" Using kernel: " ++ kernel_name.getD "" ++ ".")
    else h2
  (hsetKey h3 a.2 "claude_next"
    (Val.vs "Add cells with jupyter_add_cell() or execute code with jupyter_execute_cell()."),
   a.2)

/-- wrap_cell_added against the store. -/
def wrap_cell_addedH (h : Heap) (r : Nat) (cell_type : String) (cell_index : Int) :
    Heap × Nat :=
  let a := halloc h (hget h r)
  let h1 := hsetKey a.1 a.2 "status" (Val.vs "success")
  let h2 := hsetKey h1 a.2 "claude_tip"
    (Val.vs (pyCapitalize cell_type ++ " cell added at index " ++ toString cell_index ++ "."))
  if cell_type = "code" then
    (hsetKey h2 a.2 "claude_next" (Val.vs "Execute the cell with jupyter_execute_cell()."), a.2)
  else
    (hsetKey h2 a.2 "claude_next" (Val.vs "Add more cells or execute existing code cells."), a.2)

/-- wrap_kernel_status against the store. -/
def wrap_kernel_statusH (h : Heap) (r : Nat) (is_alive : Bool)
    (execution_count : Option Int) : Heap × Nat :=
  let a := halloc h (hget h r)
  if is_alive then
    let h1 := hsetKey a.1 a.2 "status" (Val.vs "running")
    let h2 := hsetKey h1 a.2 "claude_tip" (Val.vs "Kernel is running and ready for execution.")
    let h3 := match execution_count with
      | some n => happendStr h2 a.2 "claude_tip" (" Execution count: " ++ toString n ++ ".")
      | none => h2
    (hsetKey h3 a.2 "claude_next" (Val.vs "Execute code with jupyter_execute_cell()."), a.2)
  else
    let h1 := hsetKey a.1 a.2 "status" (Val.vs "stopped")
    let h2 := hsetKey h1 a.2 "claude_tip" (Val.vs "Kernel is not running.")
    (hsetKey h2 a.2 "claude_next" (Val.vs "Start the kernel or create a new notebook."), a.2)

/-- wrap_generic_success against the store. -/
def wrap_generic_successH (h : Heap) (r : Nat) (operation : String)
    (details : Option String) : Heap × Nat :=
  let a := halloc h (hget h r)
  let h1 := hsetKey a.1 a.2 "status" (Val.vs "success")
  let h2 := hsetKey h1 a.2 "claude_tip" (Val.vs (operation ++ " completed successfully."))
  let h3 := if pyTruthyS details then happendStr h2 a.2 "claude_tip" (" " ++ details.getD "")
    else h2
  (hsetKey h3 a.2 "claude_next" (Val.vs "Continue with your workflow."), a.2)

/-! ## Exception-checked variants

The only operations of the core that Python does not define totally are the
list subscripts `parts[0]` / `parts[1]` of parse_traceback (the template
interpolations can raise KeyError, but the source catches those locally, which
the `Option` result of `pyFormat` already models).  The checked variants below
propagate an error wherever an out-of-range subscript would raise, and the
totality theorem shows they always return `ok`. -/

/-- errPair with checked subscripts. -/
def errPairX (lines : List (List Char)) : Except String (List Char × List Char) :=
  match findErrLine? lines with
  | some l =>
    let parts := pySplitCS1 l
    match parts.head? with
    | none => Except.error "IndexError"
    | some p0 =>
      if parts.length > 1 then
        match parts[1]? with
        | none => Except.error "IndexError"
        | some p1 => Except.ok (pyStripL p0, pyStripL p1)
      else Except.ok (pyStripL p0, [])
  | none => Except.ok ("UnknownError".data, [])

/-- parse_traceback with checked subscripts. -/
def parse_tracebackX (text : String) : Except String ParsedError :=
  match errPairX (pyLines text) with
  | Except.error e => Except.error e
  | Except.ok p =>
    let loc := frameScan (pyLines text) {}
    Except.ok
      { error_type := String.mk p.1
        error_message := String.mk p.2
        file_path := loc.file.map String.mk
        line_number := loc.line
        function_name := loc.func.map String.mk
        code_context := loc.cc.map String.mk
        extracted_values := extract_error_values (String.mk p.1) (String.mk p.2) }

/-- analyze_error with checked subscripts. -/
def analyze_errorX (text : String) : Except String ErrorAnalysis :=
  (parse_tracebackX text).map mkAnalysis

/-- enrich_response with checked subscripts. -/
def enrich_responseX (response : Resp) (traceback_text : String) : Except String Resp :=
  (analyze_errorX traceback_text).map (enrichWith response)

/-- Python `d[k] += s` with the read checked: KeyError when the key is
absent, TypeError when the value is not a string (the raising behaviour
`appendStrKey` elides). -/
def appendStrKeyX (d : Resp) (k : String) (s : String) : Except String Resp :=
  match lookupKey d k with
  | some (Val.vs t) => Except.ok (setKey d k (Val.vs (t ++ s)))
  | some _ => Except.error "TypeError"
  | none => Except.error "KeyError"

/-- successTipsNext with the subscript `df_vars[0]` checked (it sits inside
the `if df_vars:` guard in the source). -/
def successTipsNextX (output : Option String) (namespace_vars : Option (List String)) :
    Except String (List String × List String) :=
  let tips : List String :=
    if pyTruthyS output then ["Code executed successfully with output."]
    else ["Code executed successfully (no output)."]
  let next_steps : List String := []
  match namespace_vars with
  | some vars =>
    if vars ≠ [] then
      let df_vars := vars.filter (fun v => v.endsWith "_df" || v = "df")
      let p1X : Except String (List String × List String) :=
        if df_vars ≠ [] then
          match df_vars.head? with
          | none => Except.error "IndexError"
          | some d0 =>
            Except.ok
              (["DataFrames available: " ++ String.intercalate ", " df_vars],
               ["Explore data with " ++ d0 ++ ".head() or " ++ d0 ++ ".describe()"])
        else Except.ok ([], [])
      match p1X with
      | Except.error e => Except.error e
      | Except.ok p1 =>
        let p2 : List String × List String :=
          if vars.length > 0 then
            (["Namespace contains " ++ toString vars.length ++ " variable(s)."],
             ["Use jupyter_inspect_namespace() to see all defined variables."])
          else ([], [])
        Except.ok (tips ++ p1.1 ++ p2.1, next_steps ++ p1.2 ++ p2.2)
    else Except.ok (tips, next_steps)
  | none => Except.ok (tips, next_steps)

/-- wrap_execution_success with the guarded subscript checked. -/
def wrap_execution_successX (response : Resp) (output : Option String)
    (namespace_vars : Option (List String)) : Except String Resp :=
  (successTipsNextX output namespace_vars).map (fun p =>
    let enriched := setKey response "status" (Val.vs "success")
    let enriched := setKey enriched "claude_tip"
      (Val.vs (if p.1 ≠ [] then String.intercalate " " p.1 else "Execution complete."))
    setKey enriched "claude_next"
      (Val.vs (if p.2 ≠ [] then String.intercalate " " p.2 else "Continue with your analysis.")))

/-- wrap_execution_error with checked subscripts: a plain dict assignment
(which cannot raise) followed by the checked enrich_response. -/
def wrap_execution_errorX (response : Resp) (traceback_text : String) : Except String Resp :=
  enrich_responseX (setKey response "status" (Val.vs "error")) traceback_text

/-- wrap_notebook_created with the augmented assignment checked. -/
def wrap_notebook_createdX (response : Resp) (notebook_path : String)
    (kernel_name : Option String) : Except String Resp :=
  let e1 := setKey response "status" (Val.vs "success")
  let e2 := setKey e1 "claude_tip" (Val.vs ("Notebook created at " ++ notebook_path ++ "."))
  let e3X := if pyTruthyS kernel_name then
      appendStrKeyX e2 "claude_tip" (" Using kernel: " ++ kernel_name.getD "" ++ ".")
    else Except.ok e2
  e3X.map (fun e3 => setKey e3 "claude_next"
    (Val.vs "Add cells with jupyter_add_cell() or execute code with jupyter_execute_cell()."))

/-- wrap_cell_added checked: its body is dict assignments, `capitalize` and
string formatting only, none of which can raise. -/
def wrap_cell_addedX (response : Resp) (cell_type : String) (cell_index : Int) :
    Except String Resp :=
  let e1 := setKey response "status" (Val.vs "success")
  let e2 := setKey e1 "claude_tip"
    (Val.vs (pyCapitalize cell_type ++ " cell added at index " ++ toString cell_index ++ "."))
  if cell_type = "code" then
    Except.ok (setKey e2 "claude_next" (Val.vs "Execute the cell with jupyter_execute_cell()."))
  else
    Except.ok (setKey e2 "claude_next" (Val.vs "Add more cells or execute existing code cells."))

/-- wrap_kernel_status with the augmented assignment checked. -/
def wrap_kernel_statusX (response : Resp) (is_alive : Bool)
    (execution_count : Option Int) : Except String Resp :=
  if is_alive then
    let e1 := setKey response "status" (Val.vs "running")
    let e2 := setKey e1 "claude_tip" (Val.vs "Kernel is running and ready for execution.")
    let e3X := match execution_count with
      | some n => appendStrKeyX e2 "claude_tip" (" Execution count: " ++ toString n ++ ".")
      | none => Except.ok e2
    e3X.map (fun e3 =>
      setKey e3 "claude_next" (Val.vs "Execute code with jupyter_execute_cell()."))
  else
    let e1 := setKey response "status" (Val.vs "stopped")
    let e2 := setKey e1 "claude_tip" (Val.vs "Kernel is not running.")
    Except.ok (setKey e2 "claude_next" (Val.vs "Start the kernel or create a new notebook."))

/-- wrap_generic_success with the augmented assignment checked. -/
def wrap_generic_successX (response : Resp) (operation : String)
    (details : Option String) : Except String Resp :=
  let e1 := setKey response "status" (Val.vs "success")
  let e2 := setKey e1 "claude_tip" (Val.vs (operation ++ " completed successfully."))
  let e3X := if pyTruthyS details then appendStrKeyX e2 "claude_tip" (" " ++ details.getD "")
    else Except.ok e2
  e3X.map (fun e3 => setKey e3 "claude_next" (Val.vs "Continue with your workflow."))

/-! ## Helper lemmas -/

/-- A successful association lookup comes from a binding of the list. -/
theorem lookupStr_mem {l : List (String × String)} {key v : String}
    (h : lookupStr l key = some v) : (key, v) ∈ l := by
  induction l with
  | nil => simp [lookupStr] at h
  | cons p rest ih =>
    obtain ⟨k', v'⟩ := p
    by_cases hk : k' = key
    · subst hk
      simp [lookupStr] at h
      simp [h]
    · simp [lookupStr, hk] at h
      exact List.mem_cons_of_mem _ (ih h)

/-- Every pip package name in the table is non-empty. -/
theorem pkg_values_ne_empty : ∀ p ∈ PACKAGE_NAME_MAP, p.2 ≠ "" := by decide

/-- The leading dotted component contains no dot. -/
theorem baseModule_no_dot (s : String) : '.' ∉ (baseModule s).data := by
  intro hmem
  simp only [baseModule] at hmem
  have := List.mem_takeWhile_imp hmem
  simp at this

/-! ## C5: resolver totality -/

/-- C5 (amended): for every string s, get_correct_package_name returns the
mapped package name of s's leading dotted component when that component is a
key of the fixed mapping, and otherwise returns s itself unchanged; the
result is non-empty whenever s is non-empty (for s = "" the fallback returns
the empty input itself), and the embedded function is total. -/
theorem resolver_total (s : String) :
    ((∃ v, lookupStr PACKAGE_NAME_MAP (baseModule s) = some v ∧
        get_correct_package_name s = v) ∨
     (lookupStr PACKAGE_NAME_MAP (baseModule s) = none ∧
        get_correct_package_name s = s)) ∧
    (s ≠ "" → get_correct_package_name s ≠ "") := by
  constructor
  · cases h : lookupStr PACKAGE_NAME_MAP (baseModule s) with
    | some v => exact Or.inl ⟨v, rfl, by simp [get_correct_package_name, h]⟩
    | none => exact Or.inr ⟨rfl, by simp [get_correct_package_name, h]⟩
  · intro hs
    cases h : lookupStr PACKAGE_NAME_MAP (baseModule s) with
    | some v =>
      have hv := pkg_values_ne_empty _ (lookupStr_mem h)
      simpa [get_correct_package_name, h] using hv
    | none => simpa [get_correct_package_name, h] using hs

/-- Witness for C5 at a concrete input. -/
theorem resolver_total_witness :
    get_correct_package_name "cv2" ≠ "" ∧ get_correct_package_name "cv2" = "opencv-python" :=
  ⟨(resolver_total "cv2").2 (by decide), by decide⟩

/-- Counterexample to C5 as stated: on the empty string the resolver returns
the empty string, so the result can be empty. -/
theorem resolver_empty_cex : get_correct_package_name "" = "" := by decide

/-! ## C10: the google.cloud mapping entry is unreachable -/

/-- C10 (amended): the resolver never produces "google-cloud-core" from the
mapping — the lookup key never contains a dot, so the entry keyed
"google.cloud" is dead and resolve("google.cloud") returns "google.cloud"
unchanged; the only input mapped to "google-cloud-core" is the literal string
"google-cloud-core" itself, via the identity fallback. -/
theorem google_cloud_unreachable :
    (∀ s : String, get_correct_package_name s = "google-cloud-core" →
      s = "google-cloud-core") ∧
    get_correct_package_name "google.cloud" = "google.cloud" := by
  constructor
  · intro s h
    cases hl : lookupStr PACKAGE_NAME_MAP (baseModule s) with
    | some v =>
      have hv : v = "google-cloud-core" := by
        simpa [get_correct_package_name, hl] using h
      subst hv
      have hmem := lookupStr_mem hl
      have hkey : baseModule s = "google.cloud" := by
        have hall : ∀ p ∈ PACKAGE_NAME_MAP, p.2 = "google-cloud-core" →
            p.1 = "google.cloud" := by decide
        exact hall _ hmem rfl
      exfalso
      apply baseModule_no_dot s
      rw [hkey]
      decide
    | none => simpa [get_correct_package_name, hl] using h
  · decide

/-- Witness for C10 at a concrete input. -/
theorem google_cloud_unreachable_witness :
    ("google-cloud-core" : String) = "google-cloud-core" :=
  google_cloud_unreachable.1 "google-cloud-core" (by decide)

/-- Counterexample to C10 as stated: the identity fallback does return
"google-cloud-core" when the input is that very string, so "never returns"
fails even though the mapping entry is unreachable. -/
theorem google_cloud_cex :
    get_correct_package_name "google-cloud-core" = "google-cloud-core" := by decide

/-! ## C3: no separator line found -/

/-- C3 (amended): when no unindented line contains the separator ": " —
the scan runs over the lines of the TRIMMED text, `text.strip().split("\n")`,
which is what `pyLines` produces — parse_traceback reports the sentinel kind
"UnknownError", an EMPTY error_message (the message keeps its initial value
"", it is not set to the trimmed input text), and no extracted values.
`lineTyped` is the source's loop condition,
`": " in line and not line.startswith(" ")`. -/
theorem parse_no_sep (text : String)
    (h : ∀ l ∈ pyLines text, lineTyped l = false) :
    (parse_traceback text).error_type = "UnknownError" ∧
    (parse_traceback text).error_message = "" ∧
    (parse_traceback text).extracted_values = [] := by
  have hfind : findErrLine? (pyLines text) = none := by
    unfold findErrLine?
    apply List.find?_eq_none.mpr
    intro l hl
    simp [h l (List.mem_reverse.mp hl)]
  refine ⟨?_, ?_, ?_⟩
  · simp [parse_traceback, errPair, hfind]
  · simp [parse_traceback, errPair, hfind]
  · simp [parse_traceback, errPair, hfind]
    decide

/-- Witness for C3 at a concrete input. -/
theorem parse_no_sep_witness :
    (parse_traceback "hello world").error_type = "UnknownError" ∧
    (parse_traceback "hello world").error_message = "" ∧
    (parse_traceback "hello world").extracted_values = [] :=
  parse_no_sep "hello world" (by decide)

/-- Counterexample to C3 as stated: "hello" has no typed line, and its
trimmed text is "hello", yet the parsed error_message is "" ≠ "hello". -/
theorem parse_no_sep_cex :
    (∀ l ∈ pyLines "hello", lineTyped l = false) ∧
    pyStrip "hello" = "hello" ∧
    (parse_traceback "hello").error_message ≠ pyStrip "hello" := by decide

/-! ## C4: the error kind invariant -/

/-- C4 (amended): error_kind is the sentinel "UnknownError" whenever no typed
line is found; when a typed line is found, error_kind is the trimmed text
left of the first ": ", which is empty when the line starts with the
separator (so error_kind is NOT always non-empty). -/
theorem parse_error_kind (text : String) :
    (findErrLine? (pyLines text) = none →
      (parse_traceback text).error_type = "UnknownError") ∧
    (∀ l, findErrLine? (pyLines text) = some l →
      (parse_traceback text).error_type =
        String.mk (pyStripL ((pySplitCS1 l).headD []))) := by
  constructor
  · intro hfind
    simp [parse_traceback, errPair, hfind]
  · intro l hfind
    simp [parse_traceback, errPair, hfind]

/-- Witness for C4 at concrete inputs: both branches of the amended claim. -/
theorem parse_error_kind_witness :
    (parse_traceback "no separator in sight").error_type = "UnknownError" ∧
    (parse_traceback "ValueError: x").error_type =
      String.mk (pyStripL ((pySplitCS1 "ValueError: x".data).headD [])) :=
  ⟨(parse_error_kind "no separator in sight").1 (by decide),
   (parse_error_kind "ValueError: x").2 "ValueError: x".data (by decide)⟩

/-- Counterexample to C4 as stated: the input ": foo" yields an EMPTY
error_type (the text left of the separator is empty), refuting
"error_kind is never empty". -/
theorem parse_error_kind_cex : (parse_traceback ": foo").error_type = "" := by decide

/-! ## C6: next-step precedence -/

/-- The next-step computation as the spec describes it, clause by clause in
the spec's fixed order, first match wins: (a) ModuleNotFoundError installs
extracted_values["package"], with a generic install instruction when the
package value is missing (Python truthiness: absent or empty); (b) NameError;
(c) FileNotFoundError; (d) a catalog action_template, interpolated, raw
template text on a missing placeholder; (e) the generic review-and-fix
string.  Written from the spec's words, to be compared with the source's
_generate_claude_next. -/
def spec_next_step (parsed : ParsedError) : String :=
  if parsed.error_type = "ModuleNotFoundError" then
    let package := (lookupKey parsed.extracted_values "package").getD ""
    if package ≠ "" then "Install the missing package using: uv add " ++ package
    else "Install the missing module using uv or pip."
  else if parsed.error_type = "NameError" then
    "Define '" ++ (lookupKey parsed.extracted_values "name").getD "" ++
      "' before using it, or check for typos."
  else if parsed.error_type = "FileNotFoundError" then
    "Verify the file path. Use os.getcwd() to check current directory."
  else
    match lookupKey ERROR_FIX_MAP parsed.error_type with
    | some fx =>
      match fx.action_template with
      | some t =>
        if t ≠ "" then (pyFormat t parsed.extracted_values).getD t
        else "Review the error and fix the underlying issue."
      | none => "Review the error and fix the underlying issue."
    | none => "Review the error and fix the underlying issue."

/-- C6: the next_step produced by the analyzer follows exactly the spec's
fixed precedence (a)-(e). -/
theorem next_step_precedence (text : String) :
    (analyze_error text).claude_next = spec_next_step (parse_traceback text) := by
  have hgen : ∀ parsed : ParsedError,
      generate_claude_next parsed (lookupKey ERROR_FIX_MAP parsed.error_type) =
        spec_next_step parsed := by
    intro parsed
    rfl
  exact hgen (parse_traceback text)

/-! ## C9: the cv2 scenario -/

/-- C9: any trace whose final typed line (the line the backward scan selects)
is "ModuleNotFoundError: No module named 'cv2'" parses to kind
ModuleNotFoundError with module cv2 resolved to package opencv-python, and
the analysis's suggested action is "uv add opencv-python". -/
theorem cv2_scenario (text : String)
    (h : findErrLine? (pyLines text) =
      some "ModuleNotFoundError: No module named 'cv2'".data) :
    (parse_traceback text).error_type = "ModuleNotFoundError" ∧
    (parse_traceback text).error_message = "No module named 'cv2'" ∧
    (parse_traceback text).extracted_values =
      [("module", "cv2"), ("package", "opencv-python")] ∧
    (analyze_error text).suggested_action = some "uv add opencv-python" := by
  have hp : errPair (pyLines text) =
      ("ModuleNotFoundError".data, "No module named 'cv2'".data) := by
    unfold errPair
    rw [h]
    decide
  have h1 : (parse_traceback text).error_type = "ModuleNotFoundError" := by
    simp [parse_traceback, hp]
  have h2 : (parse_traceback text).error_message = "No module named 'cv2'" := by
    simp [parse_traceback, hp]
  have h3 : (parse_traceback text).extracted_values =
      [("module", "cv2"), ("package", "opencv-python")] := by
    simp [parse_traceback, hp]
    decide
  refine ⟨h1, h2, h3, ?_⟩
  show (mkAnalysis (parse_traceback text)).suggested_action = some "uv add opencv-python"
  simp [mkAnalysis, generate_action, h1, h3]
  decide

/-- Witness for C9 at a concrete traceback. -/
theorem cv2_scenario_witness :
    (analyze_error "Traceback (most recent call last):\n  File \"t.py\", line 1, in <module>\n    import cv2\nModuleNotFoundError: No module named 'cv2'").suggested_action =
      some "uv add opencv-python" :=
  (cv2_scenario "Traceback (most recent call last):\n  File \"t.py\", line 1, in <module>\n    import cv2\nModuleNotFoundError: No module named 'cv2'" (by decide)).2.2.2

/-! ## C1: enrichment preserves (non-injected) keys -/

/-- Setting one key leaves the binding of any other key unchanged. -/
theorem lookupKey_setKey_ne {d : Resp} {k k' : String} {v : Val} (h : k ≠ k') :
    lookupKey (setKey d k' v) k = lookupKey d k := by
  induction d with
  | nil => simp [setKey, lookupKey, Ne.symm h]
  | cons p rest ih =>
    obtain ⟨a, b⟩ := p
    by_cases ha : a = k'
    · subst ha
      simp [setKey, lookupKey, Ne.symm h]
    · simp [setKey, ha, lookupKey, ih]

/-- String-appending to one key leaves the binding of any other key unchanged. -/
theorem lookupKey_appendStr_ne {d : Resp} {k k' : String} {s : String} (h : k ≠ k') :
    lookupKey (appendStrKey d k' s) k = lookupKey d k := by
  unfold appendStrKey
  cases hv : lookupKey d k' with
  | none => rfl
  | some w => cases w <;> simp [lookupKey_setKey_ne h]

/-- enrichWith only writes the four injected guidance keys. -/
theorem enrichWith_preserves {r : Resp} {k : String} (analysis : ErrorAnalysis)
    (h2 : k ≠ "claude_tip") (h3 : k ≠ "claude_next")
    (h4 : k ≠ "suggested_action") (h5 : k ≠ "error_details") :
    lookupKey (enrichWith r analysis) k = lookupKey r k := by
  unfold enrichWith
  cases hsa : analysis.suggested_action with
  | none =>
    simp only [hsa]
    rw [lookupKey_setKey_ne h5, lookupKey_setKey_ne h3, lookupKey_setKey_ne h2]
  | some a =>
    simp only [hsa]
    by_cases hae : a = ""
    · simp only [hae, ne_eq, not_true_eq_false, if_false, ite_self]
      rw [lookupKey_setKey_ne h5, lookupKey_setKey_ne h3, lookupKey_setKey_ne h2]
    · simp only [ne_eq, hae, not_false_eq_true, if_true]
      rw [lookupKey_setKey_ne h5, lookupKey_setKey_ne h4,
        lookupKey_setKey_ne h3, lookupKey_setKey_ne h2]

/-- C1 (amended): every enrichment entry point preserves each key/value pair
of the input response whose key is NOT one of the injected keys status,
claude_tip, claude_next, suggested_action, error_details; pairs under those
keys can be overwritten (see the counterexample), so enrichment is only
additive outside the injected-key set. -/
theorem enrichment_preserves_other_keys (r : Resp) (k : String) (v : Val)
    (h1 : k ≠ "status") (h2 : k ≠ "claude_tip") (h3 : k ≠ "claude_next")
    (h4 : k ≠ "suggested_action") (h5 : k ≠ "error_details")
    (hk : lookupKey r k = some v) :
    (∀ output namespace_vars,
      lookupKey (wrap_execution_success r output namespace_vars) k = some v) ∧
    (∀ tb, lookupKey (wrap_execution_error r tb) k = some v) ∧
    (∀ pth kn, lookupKey (wrap_notebook_created r pth kn) k = some v) ∧
    (∀ ct ci, lookupKey (wrap_cell_added r ct ci) k = some v) ∧
    (∀ ia ec, lookupKey (wrap_kernel_status r ia ec) k = some v) ∧
    (∀ op dt, lookupKey (wrap_generic_success r op dt) k = some v) ∧
    (∀ tb, lookupKey (enrich_response r tb) k = some v) := by
  refine ⟨?_, ?_, ?_, ?_, ?_, ?_, ?_⟩
  · intro output namespace_vars
    simp [wrap_execution_success, lookupKey_setKey_ne, h1, h2, h3, hk]
  · intro tb
    simp [wrap_execution_error, enrich_response, enrichWith_preserves,
      lookupKey_setKey_ne, h1, h2, h3, h4, h5, hk]
  · intro pth kn
    simp [wrap_notebook_created, apply_ite (fun d => lookupKey d k), ite_self,
      lookupKey_setKey_ne, lookupKey_appendStr_ne, h1, h2, h3, hk]
  · intro ct ci
    simp [wrap_cell_added, apply_ite (fun d => lookupKey d k), ite_self,
      lookupKey_setKey_ne, h1, h2, h3, hk]
  · intro ia ec
    cases ia <;> cases ec <;>
      simp [wrap_kernel_status, lookupKey_setKey_ne, lookupKey_appendStr_ne,
        h1, h2, h3, hk]
  · intro op dt
    simp [wrap_generic_success, apply_ite (fun d => lookupKey d k), ite_self,
      lookupKey_setKey_ne, lookupKey_appendStr_ne, h1, h2, h3, hk]
  · intro tb
    simp [enrich_response, enrichWith_preserves, h2, h3, h4, h5, hk]

/-- Witness for C1 at a concrete response and key. -/
theorem enrichment_preserves_other_keys_witness :
    lookupKey (wrap_cell_added [("x", Val.vs "1")] "code" 0) "x" = some (Val.vs "1") :=
  (enrichment_preserves_other_keys [("x", Val.vs "1")] "x" (Val.vs "1")
    (by decide) (by decide) (by decide) (by decide) (by decide) (by decide)).2.2.2.1 "code" 0

/-- Counterexample to C1 as stated: a pre-existing "status" binding is
present before the call but its value is changed by the call. -/
theorem enrichment_overwrites_cex :
    lookupKey ([("status", Val.vs "orig")] : Resp) "status" = some (Val.vs "orig") ∧
    lookupKey (wrap_generic_success [("status", Val.vs "orig")] "Op" none) "status" =
      some (Val.vs "success") ∧
    Val.vs "success" ≠ Val.vs "orig" := by decide

/-! ## C8: no mutation of the caller's response -/

/-- Allocation does not disturb existing cells. -/
theorem hget_append_lt {h : Heap} {d : Resp} {r : Nat} (hr : r < h.length) :
    hget (h ++ [d]) r = hget h r := by
  simp [hget, List.getElem?_append_left hr]

/-- The allocated cell holds the copied dict. -/
theorem hget_append_self (h : Heap) (d : Resp) :
    hget (h ++ [d]) h.length = d := by
  simp [hget, List.getElem?_concat_length]

/-- Writing one cell does not disturb another. -/
theorem hget_hsetKey_ne {h : Heap} {i r : Nat} {k : String} {v : Val} (hir : r ≠ i) :
    hget (hsetKey h i k v) r = hget h r := by
  simp [hget, hsetKey, List.getElem?_set_ne (Ne.symm hir)]

/-- Reading back the written cell. -/
theorem hget_hsetKey_self {h : Heap} {i : Nat} {k : String} {v : Val} (hi : i < h.length) :
    hget (hsetKey h i k v) i = setKey (hget h i) k v := by
  simp [hget, hsetKey, List.getElem?_set_eq_of_lt _ hi]

/-- Appending on one cell does not disturb another. -/
theorem hget_happendStr_ne {h : Heap} {i r : Nat} {k s : String} (hir : r ≠ i) :
    hget (happendStr h i k s) r = hget h r := by
  simp [hget, happendStr, List.getElem?_set_ne (Ne.symm hir)]

/-- Reading back the appended cell. -/
theorem hget_happendStr_self {h : Heap} {i : Nat} {k s : String} (hi : i < h.length) :
    hget (happendStr h i k s) i = appendStrKey (hget h i) k s := by
  simp [hget, happendStr, List.getElem?_set_eq_of_lt _ hi]

theorem length_hsetKey (h : Heap) (i : Nat) (k : String) (v : Val) :
    (hsetKey h i k v).length = h.length := by
  simp [hsetKey]

theorem length_happendStr (h : Heap) (i : Nat) (k s : String) :
    (happendStr h i k s).length = h.length := by
  simp [happendStr]

/-- enrich_responseH mutates only the freshly allocated cell, whose final
contents agree with the pure enrichment of the copied dict. -/
theorem enrich_responseH_frame (h : Heap) (x : Nat) (tb : String) {r : Nat}
    (hr : r < h.length) :
    (enrich_responseH h x tb).2 = h.length ∧
    hget (enrich_responseH h x tb).1 r = hget h r ∧
    hget (enrich_responseH h x tb).1 (enrich_responseH h x tb).2 =
      enrichWith (hget h x) (analyze_error tb) := by
  have hne : r ≠ h.length := Nat.ne_of_lt hr
  refine ⟨rfl, ?_, ?_⟩
  · simp only [enrich_responseH, halloc]
    cases hsa : (analyze_error tb).suggested_action with
    | none =>
      simp only [hsa]
      rw [hget_hsetKey_ne hne, hget_hsetKey_ne hne, hget_hsetKey_ne hne,
        hget_append_lt hr]
    | some a =>
      by_cases ha : a = ""
      · simp only [hsa, ha, ne_eq, not_true_eq_false, if_false]
        rw [hget_hsetKey_ne hne, hget_hsetKey_ne hne, hget_hsetKey_ne hne,
          hget_append_lt hr]
      · simp only [hsa, ha, ne_eq, not_false_eq_true, if_true]
        rw [hget_hsetKey_ne hne, hget_hsetKey_ne hne, hget_hsetKey_ne hne,
          hget_hsetKey_ne hne, hget_append_lt hr]
  · simp only [enrich_responseH, enrichWith, halloc]
    cases hsa : (analyze_error tb).suggested_action with
    | none =>
      simp only [hsa]
      rw [hget_hsetKey_self (by simp [length_hsetKey]),
        hget_hsetKey_self (by simp [length_hsetKey]),
        hget_hsetKey_self (by simp [length_hsetKey]),
        hget_append_self]
    | some a =>
      by_cases ha : a = ""
      · simp only [hsa, ha, ne_eq, not_true_eq_false, if_false]
        rw [hget_hsetKey_self (by simp [length_hsetKey]),
          hget_hsetKey_self (by simp [length_hsetKey]),
          hget_hsetKey_self (by simp [length_hsetKey]),
          hget_append_self]
      · simp only [hsa, ha, ne_eq, not_false_eq_true, if_true]
        rw [hget_hsetKey_self (by simp [length_hsetKey]),
          hget_hsetKey_self (by simp [length_hsetKey]),
          hget_hsetKey_self (by simp [length_hsetKey]),
          hget_hsetKey_self (by simp [length_hsetKey]),
          hget_append_self]

/-- C8: every enrichment entry point, run against the store, returns a fresh
cell (a new structure, never the caller's reference), leaves the
caller-supplied cell bound to exactly the dict it held before the call, and
fills the fresh cell with the pure enrichment of a copy of the original. -/
theorem wrappers_no_mutation (h : Heap) (r : Nat) (hr : r < h.length) :
    (∀ output namespace_vars,
      (wrap_execution_successH h r output namespace_vars).2 ≠ r ∧
      hget (wrap_execution_successH h r output namespace_vars).1 r = hget h r ∧
      hget (wrap_execution_successH h r output namespace_vars).1
          (wrap_execution_successH h r output namespace_vars).2 =
        wrap_execution_success (hget h r) output namespace_vars) ∧
    (∀ tb,
      (wrap_execution_errorH h r tb).2 ≠ r ∧
      hget (wrap_execution_errorH h r tb).1 r = hget h r ∧
      hget (wrap_execution_errorH h r tb).1 (wrap_execution_errorH h r tb).2 =
        wrap_execution_error (hget h r) tb) ∧
    (∀ pth kn,
      (wrap_notebook_createdH h r pth kn).2 ≠ r ∧
      hget (wrap_notebook_createdH h r pth kn).1 r = hget h r ∧
      hget (wrap_notebook_createdH h r pth kn).1 (wrap_notebook_createdH h r pth kn).2 =
        wrap_notebook_created (hget h r) pth kn) ∧
    (∀ ct ci,
      (wrap_cell_addedH h r ct ci).2 ≠ r ∧
      hget (wrap_cell_addedH h r ct ci).1 r = hget h r ∧
      hget (wrap_cell_addedH h r ct ci).1 (wrap_cell_addedH h r ct ci).2 =
        wrap_cell_added (hget h r) ct ci) ∧
    (∀ ia ec,
      (wrap_kernel_statusH h r ia ec).2 ≠ r ∧
      hget (wrap_kernel_statusH h r ia ec).1 r = hget h r ∧
      hget (wrap_kernel_statusH h r ia ec).1 (wrap_kernel_statusH h r ia ec).2 =
        wrap_kernel_status (hget h r) ia ec) ∧
    (∀ op dt,
      (wrap_generic_successH h r op dt).2 ≠ r ∧
      hget (wrap_generic_successH h r op dt).1 r = hget h r ∧
      hget (wrap_generic_successH h r op dt).1 (wrap_generic_successH h r op dt).2 =
        wrap_generic_success (hget h r) op dt) ∧
    (∀ tb,
      (enrich_responseH h r tb).2 ≠ r ∧
      hget (enrich_responseH h r tb).1 r = hget h r ∧
      hget (enrich_responseH h r tb).1 (enrich_responseH h r tb).2 =
        enrich_response (hget h r) tb) := by
  have hne : r ≠ h.length := Nat.ne_of_lt hr
  refine ⟨?_, ?_, ?_, ?_, ?_, ?_, ?_⟩
  · intro output namespace_vars
    refine ⟨?_, ?_, ?_⟩
    · simp only [wrap_execution_successH, halloc]
      exact Ne.symm hne
    · simp only [wrap_execution_successH, halloc]
      rw [hget_hsetKey_ne hne, hget_hsetKey_ne hne, hget_hsetKey_ne hne,
        hget_append_lt hr]
    · simp only [wrap_execution_successH, wrap_execution_success, halloc]
      rw [hget_hsetKey_self (by simp [length_hsetKey]),
        hget_hsetKey_self (by simp [length_hsetKey]),
        hget_hsetKey_self (by simp [length_hsetKey]),
        hget_append_self]
  · intro tb
    simp only [wrap_execution_errorH, halloc]
    have hlen1 : (hsetKey (h ++ [hget h r]) h.length "status" (Val.vs "error")).length =
        h.length + 1 := by
      simp [length_hsetKey]
    have hr1 : r < (hsetKey (h ++ [hget h r]) h.length "status" (Val.vs "error")).length := by
      omega
    obtain ⟨he2, hpres, hagree⟩ :=
      enrich_responseH_frame (hsetKey (h ++ [hget h r]) h.length "status" (Val.vs "error"))
        h.length tb hr1
    refine ⟨?_, ?_, ?_⟩
    · rw [he2]
      omega
    · rw [hpres, hget_hsetKey_ne hne, hget_append_lt hr]
    · rw [hagree, hget_hsetKey_self (by simp), hget_append_self]
      rfl
  · intro pth kn
    refine ⟨?_, ?_, ?_⟩
    · simp only [wrap_notebook_createdH, halloc]
      exact Ne.symm hne
    · simp only [wrap_notebook_createdH, halloc]
      by_cases hkn : pyTruthyS kn = true
      · simp only [if_pos hkn]
        rw [hget_hsetKey_ne hne, hget_happendStr_ne hne, hget_hsetKey_ne hne,
          hget_hsetKey_ne hne, hget_append_lt hr]
      · simp only [if_neg hkn]
        rw [hget_hsetKey_ne hne, hget_hsetKey_ne hne, hget_hsetKey_ne hne,
          hget_append_lt hr]
    · simp only [wrap_notebook_createdH, wrap_notebook_created, halloc]
      by_cases hkn : pyTruthyS kn = true
      · simp only [if_pos hkn]
        rw [hget_hsetKey_self (by simp [length_hsetKey, length_happendStr]),
          hget_happendStr_self (by simp [length_hsetKey]),
          hget_hsetKey_self (by simp [length_hsetKey]),
          hget_hsetKey_self (by simp),
          hget_append_self]
      · simp only [if_neg hkn]
        rw [hget_hsetKey_self (by simp [length_hsetKey]),
          hget_hsetKey_self (by simp [length_hsetKey]),
          hget_hsetKey_self (by simp),
          hget_append_self]
  · intro ct ci
    refine ⟨?_, ?_, ?_⟩
    · simp only [wrap_cell_addedH, halloc]
      by_cases hct : ct = "code"
      · simp only [if_pos hct]
        exact Ne.symm hne
      · simp only [if_neg hct]
        exact Ne.symm hne
    · simp only [wrap_cell_addedH, halloc]
      by_cases hct : ct = "code"
      · simp only [if_pos hct]
        rw [hget_hsetKey_ne hne, hget_hsetKey_ne hne, hget_hsetKey_ne hne,
          hget_append_lt hr]
      · simp only [if_neg hct]
        rw [hget_hsetKey_ne hne, hget_hsetKey_ne hne, hget_hsetKey_ne hne,
          hget_append_lt hr]
    · simp only [wrap_cell_addedH, wrap_cell_added, halloc]
      by_cases hct : ct = "code"
      · simp only [if_pos hct]
        rw [hget_hsetKey_self (by simp [length_hsetKey]),
          hget_hsetKey_self (by simp [length_hsetKey]),
          hget_hsetKey_self (by simp),
          hget_append_self]
      · simp only [if_neg hct]
        rw [hget_hsetKey_self (by simp [length_hsetKey]),
          hget_hsetKey_self (by simp [length_hsetKey]),
          hget_hsetKey_self (by simp),
          hget_append_self]
  · intro ia ec
    refine ⟨?_, ?_, ?_⟩
    · simp only [wrap_kernel_statusH, halloc]
      cases ia <;> cases ec <;>
          simp only [Bool.false_eq_true, if_false, eq_self_iff_true, if_true] <;>
        exact Ne.symm hne
    · simp only [wrap_kernel_statusH, halloc]
      cases ia <;> cases ec <;>
        simp only [Bool.false_eq_true, if_false, eq_self_iff_true, if_true]
      · rw [hget_hsetKey_ne hne, hget_hsetKey_ne hne, hget_hsetKey_ne hne,
          hget_append_lt hr]
      · rw [hget_hsetKey_ne hne, hget_hsetKey_ne hne, hget_hsetKey_ne hne,
          hget_append_lt hr]
      · rw [hget_hsetKey_ne hne, hget_hsetKey_ne hne, hget_hsetKey_ne hne,
          hget_append_lt hr]
      · rw [hget_hsetKey_ne hne, hget_happendStr_ne hne, hget_hsetKey_ne hne,
          hget_hsetKey_ne hne, hget_append_lt hr]
    · simp only [wrap_kernel_statusH, wrap_kernel_status, halloc]
      cases ia <;> cases ec <;>
        simp only [Bool.false_eq_true, if_false, eq_self_iff_true, if_true]
      · rw [hget_hsetKey_self (by simp [length_hsetKey]),
          hget_hsetKey_self (by simp [length_hsetKey]),
          hget_hsetKey_self (by simp),
          hget_append_self]
      · rw [hget_hsetKey_self (by simp [length_hsetKey]),
          hget_hsetKey_self (by simp [length_hsetKey]),
          hget_hsetKey_self (by simp),
          hget_append_self]
      · rw [hget_hsetKey_self (by simp [length_hsetKey]),
          hget_hsetKey_self (by simp [length_hsetKey]),
          hget_hsetKey_self (by simp),
          hget_append_self]
      · rw [hget_hsetKey_self (by simp [length_hsetKey, length_happendStr]),
          hget_happendStr_self (by simp [length_hsetKey]),
          hget_hsetKey_self (by simp [length_hsetKey]),
          hget_hsetKey_self (by simp),
          hget_append_self]
  · intro op dt
    refine ⟨?_, ?_, ?_⟩
    · simp only [wrap_generic_successH, halloc]
      exact Ne.symm hne
    · simp only [wrap_generic_successH, halloc]
      by_cases hdt : pyTruthyS dt = true
      · simp only [if_pos hdt]
        rw [hget_hsetKey_ne hne, hget_happendStr_ne hne, hget_hsetKey_ne hne,
          hget_hsetKey_ne hne, hget_append_lt hr]
      · simp only [if_neg hdt]
        rw [hget_hsetKey_ne hne, hget_hsetKey_ne hne, hget_hsetKey_ne hne,
          hget_append_lt hr]
    · simp only [wrap_generic_successH, wrap_generic_success, halloc]
      by_cases hdt : pyTruthyS dt = true
      · simp only [if_pos hdt]
        rw [hget_hsetKey_self (by simp [length_hsetKey, length_happendStr]),
          hget_happendStr_self (by simp [length_hsetKey]),
          hget_hsetKey_self (by simp [length_hsetKey]),
          hget_hsetKey_self (by simp),
          hget_append_self]
      · simp only [if_neg hdt]
        rw [hget_hsetKey_self (by simp [length_hsetKey]),
          hget_hsetKey_self (by simp [length_hsetKey]),
          hget_hsetKey_self (by simp),
          hget_append_self]
  · intro tb
    obtain ⟨he2, hpres, hagree⟩ := enrich_responseH_frame h r tb hr
    exact ⟨by rw [he2]; exact Ne.symm hne, hpres, by rw [hagree]; rfl⟩

/-- Witness for C8 at a concrete heap and cell. -/
theorem wrappers_no_mutation_witness :
    hget (wrap_generic_successH [[("a", Val.vs "b")]] 0 "Op" none).1 0 =
      hget [[("a", Val.vs "b")]] 0 :=
  ((wrappers_no_mutation [[("a", Val.vs "b")]] 0 (by decide)).2.2.2.2.2.1 "Op" none).2.1

/-! ## C7: the last frame line wins -/

/-- The frame scan is the identity on a stretch of lines with no frame match. -/
theorem frameScan_nomatch (ls : List (List Char)) (st : LocState)
    (h : ∀ l ∈ ls, frameSearch l = none) : frameScan ls st = st := by
  induction ls with
  | nil => rfl
  | cons l rest ih =>
    have hl := h l (List.mem_cons_self l rest)
    simp only [frameScan, hl]
    exact ih (fun l' hl' => h l' (List.mem_cons_of_mem _ hl'))

/-- After the whole forward scan, the location fields come from the last
frame-matching line, and code_context from its successor when that successor
starts with four spaces. -/
theorem frameScan_last (ls : List (List Char)) (st : LocState) (i : Nat)
    (f : List Char) (n : Nat) (g : Option (List Char))
    (hi : i < ls.length)
    (hm : frameSearch (ls.getD i []) = some (f, n, g))
    (hl : ∀ l ∈ ls.drop (i + 1), frameSearch l = none) :
    (frameScan ls st).file = some f ∧
    (frameScan ls st).line = some n ∧
    (frameScan ls st).func = g ∧
    (i + 1 < ls.length → listStartsWith "    ".data (ls.getD (i + 1) []) = true →
      (frameScan ls st).cc = some (pyStripL (ls.getD (i + 1) []))) := by
  induction ls generalizing st i with
  | nil => simp at hi
  | cons l rest ih =>
    cases i with
    | zero =>
      simp only [List.getD_cons_zero] at hm
      simp only [List.drop_succ_cons, List.drop_zero] at hl
      simp only [frameScan, hm]
      rw [frameScan_nomatch rest _ hl]
      refine ⟨rfl, rfl, rfl, ?_⟩
      intro hlen hsw
      cases rest with
      | nil => simp at hlen
      | cons nxt rest2 =>
        simp only [List.getD_cons_succ, List.getD_cons_zero] at hsw ⊢
        simp only [hsw, if_true]
    | succ j =>
      simp only [List.getD_cons_succ] at hm ⊢
      simp only [List.drop_succ_cons] at hl
      have hj : j < rest.length := by
        simp only [List.length_cons] at hi
        omega
      have hcons : ∀ st' : LocState,
          (frameScan rest st').file = some f ∧
          (frameScan rest st').line = some n ∧
          (frameScan rest st').func = g ∧
          (j + 1 < rest.length →
            listStartsWith "    ".data (rest.getD (j + 1) []) = true →
            (frameScan rest st').cc = some (pyStripL (rest.getD (j + 1) []))) :=
        fun st' => ih st' j hj hm hl
      cases hfl : frameSearch l with
      | none =>
        simp only [frameScan, hfl]
        have h' := hcons st
        refine ⟨h'.1, h'.2.1, h'.2.2.1, ?_⟩
        intro hlen hsw
        exact h'.2.2.2 (by simpa using hlen) hsw
      | some t =>
        obtain ⟨f', n', g'⟩ := t
        simp only [frameScan, hfl]
        cases rest with
        | nil => simp at hj
        | cons nxt rest2 =>
          have h' := hcons
            { file := some f', line := some n', func := g'
              cc := if listStartsWith "    ".data nxt then some (pyStripL nxt) else st.cc }
          refine ⟨h'.1, h'.2.1, h'.2.2.1, ?_⟩
          intro hlen hsw
          exact h'.2.2.2 (by simpa using hlen) hsw

/-- C7 (amended): when several frame-location lines exist, parse_traceback
records the file, line and function of the LAST matching line; and when that
matched line is immediately followed by a line indented by at least FOUR
spaces, that following line, trimmed, becomes code_context (a following line
indented by fewer than four spaces does not, see the counterexample). -/
theorem frame_last_match (text : String) (i : Nat) (f : List Char) (n : Nat)
    (g : Option (List Char))
    (hi : i < (pyLines text).length)
    (hm : frameSearch ((pyLines text).getD i []) = some (f, n, g))
    (hl : ∀ l ∈ (pyLines text).drop (i + 1), frameSearch l = none) :
    (parse_traceback text).file_path = some (String.mk f) ∧
    (parse_traceback text).line_number = some n ∧
    (parse_traceback text).function_name = g.map String.mk ∧
    (i + 1 < (pyLines text).length →
      listStartsWith "    ".data ((pyLines text).getD (i + 1) []) = true →
      (parse_traceback text).code_context =
        some (String.mk (pyStripL ((pyLines text).getD (i + 1) [])))) := by
  obtain ⟨h1, h2, h3, h4⟩ := frameScan_last (pyLines text) {} i f n g hi hm hl
  refine ⟨?_, ?_, ?_, ?_⟩
  · simp [parse_traceback, h1]
  · simp [parse_traceback, h2]
  · simp [parse_traceback, h3]
  · intro hlen hsw
    simp [parse_traceback, h4 hlen hsw]

/-- Witness for C7 at a concrete two-frame traceback whose last frame is
followed by a four-space-indented snippet line. -/
theorem frame_last_match_witness :
    (parse_traceback "File \"a.py\", line 1, in f\n    x = 1\nFile \"b.py\", line 2\n    y = 2\nValueError: bad").file_path =
      some (String.mk "b.py".data) ∧
    (parse_traceback "File \"a.py\", line 1, in f\n    x = 1\nFile \"b.py\", line 2\n    y = 2\nValueError: bad").code_context =
      some (String.mk (pyStripL ((pyLines "File \"a.py\", line 1, in f\n    x = 1\nFile \"b.py\", line 2\n    y = 2\nValueError: bad").getD 3 []))) := by
  have h := frame_last_match
    "File \"a.py\", line 1, in f\n    x = 1\nFile \"b.py\", line 2\n    y = 2\nValueError: bad"
    2 "b.py".data 2 none (by decide) (by decide) (by decide)
  exact ⟨h.1, h.2.2.2 (by decide) (by decide)⟩

/-- Counterexample to C7 as stated: the line following the frame match is
indented (it starts with a space), yet it does not become code_context,
because the source requires a four-space indent. -/
theorem frame_indent_cex :
    listStartsWith " ".data ((pyLines "File \"a.py\", line 1, in f\n  y = 1").getD 1 []) = true ∧
    (parse_traceback "File \"a.py\", line 1, in f\n  y = 1").code_context = none := by
  decide

/-! ## C2: totality of the public operations -/

/-- Splitting on ": " yields one or two parts, never zero. -/
theorem pySplitCS1_shape (l : List Char) :
    pySplitCS1 l = [l] ∨ ∃ a b, pySplitCS1 l = [a, b] := by
  unfold pySplitCS1
  cases findColonSpace l with
  | none => exact Or.inl rfl
  | some i => exact Or.inr ⟨_, _, rfl⟩

/-- The checked backward scan never hits an out-of-range subscript. -/
theorem errPairX_ok (lines : List (List Char)) :
    errPairX lines = Except.ok (errPair lines) := by
  unfold errPairX errPair
  cases hf : findErrLine? lines with
  | none => rfl
  | some l =>
    rcases pySplitCS1_shape l with hs | ⟨a, b, hs⟩ <;> simp [hs]

/-- Reading back the key just written. -/
theorem lookupKey_setKey_self (d : Resp) (k : String) (v : Val) :
    lookupKey (setKey d k v) k = some v := by
  induction d with
  | nil => simp [setKey, lookupKey]
  | cons p rest ih =>
    obtain ⟨a, b⟩ := p
    by_cases ha : a = k
    · subst ha
      simp [setKey, lookupKey]
    · simp [setKey, ha, lookupKey, ih]

/-- The checked augmented assignment succeeds whenever the key holds a
string, as it does at every source call site (the key is assigned a string
on the immediately preceding line). -/
theorem appendStrKeyX_ok {d : Resp} {k s t : String}
    (h : lookupKey d k = some (Val.vs t)) :
    appendStrKeyX d k s = Except.ok (appendStrKey d k s) := by
  unfold appendStrKeyX appendStrKey
  rw [h]

/-- The checked `df_vars[0]` subscript never fires: it is reached only under
the source's `if df_vars:` guard. -/
theorem successTipsNextX_ok (output : Option String) (namespace_vars : Option (List String)) :
    successTipsNextX output namespace_vars =
      Except.ok (successTipsNext output namespace_vars) := by
  unfold successTipsNextX successTipsNext
  cases namespace_vars with
  | none => rfl
  | some vars =>
    by_cases hv : vars = []
    · simp [hv]
    · simp only [ne_eq, hv, not_false_eq_true, if_true]
      cases hdf : vars.filter (fun v => v.endsWith "_df" || v = "df") with
      | nil => simp
      | cons d0 rest => simp

/-- C2: every public operation of the core and of the ResponseWrapper is
total.  The checked embeddings raise wherever a Python operation is not
defined totally — the `parts[0]`/`parts[1]` subscripts of the parse, the
guarded `df_vars[0]` subscript of wrap_execution_success, and the
`enriched["claude_tip"] += ...` dict reads of the notebook/kernel/generic
wrappers (KeyError/TypeError); the catalog-template interpolations are
caught locally in the source, which the Option result of pyFormat models.
The theorem shows every checked operation returns ok with exactly the value
of the total embedding, for every input string — including the empty
string — and every response dict and parameter. -/
theorem core_operations_total (text : String) :
    parse_tracebackX text = Except.ok (parse_traceback text) ∧
    analyze_errorX text = Except.ok (analyze_error text) ∧
    (∀ response : Resp,
      enrich_responseX response text = Except.ok (enrich_response response text)) ∧
    (∀ (response : Resp) output namespace_vars,
      wrap_execution_successX response output namespace_vars =
        Except.ok (wrap_execution_success response output namespace_vars)) ∧
    (∀ response : Resp,
      wrap_execution_errorX response text =
        Except.ok (wrap_execution_error response text)) ∧
    (∀ (response : Resp) pth kn,
      wrap_notebook_createdX response pth kn =
        Except.ok (wrap_notebook_created response pth kn)) ∧
    (∀ (response : Resp) ct ci,
      wrap_cell_addedX response ct ci = Except.ok (wrap_cell_added response ct ci)) ∧
    (∀ (response : Resp) ia ec,
      wrap_kernel_statusX response ia ec =
        Except.ok (wrap_kernel_status response ia ec)) ∧
    (∀ (response : Resp) op dt,
      wrap_generic_successX response op dt =
        Except.ok (wrap_generic_success response op dt)) := by
  have hp : parse_tracebackX text = Except.ok (parse_traceback text) := by
    unfold parse_tracebackX parse_traceback
    rw [errPairX_ok]
  have he : ∀ response : Resp,
      enrich_responseX response text = Except.ok (enrich_response response text) := by
    intro response
    unfold enrich_responseX enrich_response analyze_errorX analyze_error
    rw [hp]
    rfl
  refine ⟨hp, ?_, he, ?_, ?_, ?_, ?_, ?_, ?_⟩
  · unfold analyze_errorX analyze_error
    rw [hp]
    rfl
  · intro response output namespace_vars
    unfold wrap_execution_successX wrap_execution_success
    rw [successTipsNextX_ok]
    rfl
  · intro response
    unfold wrap_execution_errorX wrap_execution_error
    rw [he]
  · intro response pth kn
    unfold wrap_notebook_createdX wrap_notebook_created
    by_cases hkn : pyTruthyS kn = true
    · simp only [if_pos hkn]
      rw [appendStrKeyX_ok (lookupKey_setKey_self _ _ _)]
      rfl
    · simp only [if_neg hkn]
      rfl
  · intro response ct ci
    unfold wrap_cell_addedX wrap_cell_added
    by_cases hct : ct = "code"
    · simp only [if_pos hct]
    · simp only [if_neg hct]
  · intro response ia ec
    unfold wrap_kernel_statusX wrap_kernel_status
    cases ia with
    | false => rfl
    | true =>
      cases ec with
      | none => rfl
      | some n =>
        simp only [eq_self_iff_true, if_true]
        rw [appendStrKeyX_ok (lookupKey_setKey_self _ _ _)]
        rfl
  · intro response op dt
    unfold wrap_generic_successX wrap_generic_success
    by_cases hdt : pyTruthyS dt = true
    · simp only [if_pos hdt]
      rw [appendStrKeyX_ok (lookupKey_setKey_self _ _ _)]
      rfl
    · simp only [if_neg hdt]
      rfl

end OpenJupy
